import Mathlib

/-!
Shallow embedding of the benchmark / trend-analysis core of the
envisioner-app repository, together with theorems settling the frozen
claims about its specification.

Sources embedded here:
  * `src/lib/db.js`       — `calculateChange`, `calculateCpaChange`, the
                            creator-momentum classification loop;
  * `src/unnamed/part_003`— `contributeToBenchmarks`,
                            `computeSegmentBenchmarks`, `getBenchmarks`,
                            `getDefaultBenchmarks`;
  * `src/lib/score.js`    — `calculateScore`.

JavaScript numbers are modelled by `ℚ` (all the arithmetic in these
functions is exact on rationals), `Math.round` by `jsRound`
(round-half-toward-positive-infinity, which is JS semantics), and JS
`null` by `Option`.
-/

namespace Envisioner

/-- JS `Math.round`: rounds half toward positive infinity,
`Math.round x = ⌊x + 1/2⌋`. -/
def jsRound (x : ℚ) : ℤ := ⌊x + 1/2⌋

/-- JS `Math.round(x * 100) / 100` (rounding to cents, used by
`calculateCpaChange` for the reported CPA values). -/
def roundCents (x : ℚ) : ℚ := (jsRound (x * 100) : ℚ) / 100

/-- Result shape of `calculateChange` in `src/lib/db.js`. -/
structure Change where
  percent : ℤ
  direction : String
  current : ℚ
  previous : ℚ
deriving DecidableEq, Repr

/-- `calculateChange(current, previous)` from `src/lib/db.js` lines 525-535. -/
def calculateChange (current previous : ℚ) : Change :=
  if previous = 0 ∧ current = 0 then ⟨0, "flat", current, previous⟩
  else if previous = 0 then ⟨100, "up", current, previous⟩
  else
    ⟨jsRound ((current - previous) / previous * 100),
      if 5 < jsRound ((current - previous) / previous * 100) then "up"
      else if jsRound ((current - previous) / previous * 100) < -5 then "down"
      else "flat",
      current, previous⟩

/-- Result shape of `calculateCpaChange` in `src/lib/db.js`. -/
structure CpaChange where
  percent : ℤ
  direction : String
  current : Option ℚ
  previous : Option ℚ
deriving DecidableEq, Repr

/-- `calculateCpaChange(currentSpend, currentConv, previousSpend, previousConv)`
from `src/lib/db.js` lines 537-552. -/
def calculateCpaChange (currentSpend currentConv previousSpend previousConv : ℚ) :
    CpaChange :=
  let currentCpa : Option ℚ :=
    if currentConv > 0 then some (currentSpend / currentConv) else none
  let previousCpa : Option ℚ :=
    if previousConv > 0 then some (previousSpend / previousConv) else none
  match currentCpa, previousCpa with
  | none, none => ⟨0, "flat", none, none⟩
  | c, none => ⟨0, "new", c, none⟩
  | none, some p => ⟨-100, "lost", none, some p⟩
  | some c, some p =>
    ⟨jsRound ((c - p) / p * 100),
      if jsRound ((c - p) / p * 100) < -5 then "improving"
      else if 5 < jsRound ((c - p) / p * 100) then "worsening"
      else "stable",
      some (roundCents c), some (roundCents p)⟩

lemma jsRound_zero : jsRound 0 = 0 := by
  unfold jsRound
  norm_num

lemma calculateChange_of_ne (current previous : ℚ) (h : previous ≠ 0) :
    calculateChange current previous =
      ⟨jsRound ((current - previous) / previous * 100),
        if 5 < jsRound ((current - previous) / previous * 100) then "up"
        else if jsRound ((current - previous) / previous * 100) < -5 then "down"
        else "flat",
        current, previous⟩ := by
  simp [calculateChange, h]

lemma calculateCpaChange_of_pos (cs cc ps pc : ℚ) (h1 : 0 < cc) (h2 : 0 < pc) :
    calculateCpaChange cs cc ps pc =
      ⟨jsRound ((cs / cc - ps / pc) / (ps / pc) * 100),
        if jsRound ((cs / cc - ps / pc) / (ps / pc) * 100) < -5 then "improving"
        else if 5 < jsRound ((cs / cc - ps / pc) / (ps / pc) * 100) then "worsening"
        else "stable",
        some (roundCents (cs / cc)), some (roundCents (ps / pc))⟩ := by
  simp [calculateCpaChange, h1, h2]

/-- C4: The period delta function satisfies, for all non-negative current and
previous: if both are zero it returns `{percent: 0, direction: 'flat'}`; if
previous is zero and current > 0 it returns `{percent: 100, direction: 'up'}`;
otherwise `percent = round((current-previous)/previous*100)` with direction
`'up'` if percent>5, `'down'` if percent<-5, else `'flat'` — hence
`delta(x,x) = {0, flat}` for every `x ≥ 0`. -/
theorem calculateChange_spec (current previous : ℚ)
    (hc : 0 ≤ current) (hp : 0 ≤ previous) :
    (previous = 0 ∧ current = 0 →
      calculateChange current previous = ⟨0, "flat", current, previous⟩) ∧
    (previous = 0 → 0 < current →
      calculateChange current previous = ⟨100, "up", current, previous⟩) ∧
    (0 < previous →
      (calculateChange current previous).percent =
        jsRound ((current - previous) / previous * 100) ∧
      ((calculateChange current previous).percent > 5 →
        (calculateChange current previous).direction = "up") ∧
      ((calculateChange current previous).percent < -5 →
        (calculateChange current previous).direction = "down") ∧
      (-5 ≤ (calculateChange current previous).percent →
        (calculateChange current previous).percent ≤ 5 →
        (calculateChange current previous).direction = "flat")) ∧
    (calculateChange current current = ⟨0, "flat", current, current⟩) := by
  refine ⟨?_, ?_, ?_, ?_⟩
  · rintro ⟨h0, h1⟩
    simp [calculateChange, h0, h1]
  · intro h0 h1
    simp [calculateChange, h0, h1.ne']
  · intro h0
    have hne : previous ≠ 0 := h0.ne'
    rw [calculateChange_of_ne current previous hne]
    refine ⟨rfl, ?_, ?_, ?_⟩
    · intro h1
      simp only at h1 ⊢
      rw [if_pos h1]
    · intro h1
      simp only at h1 ⊢
      rw [if_neg (by omega), if_pos h1]
    · intro h1 h2
      simp only at h1 h2 ⊢
      rw [if_neg (by omega), if_neg (by omega)]
  · by_cases h0 : current = 0
    · simp [calculateChange, h0]
    · have hsub : (current - current) / current * 100 = 0 := by
        field_simp
      rw [calculateChange_of_ne current current h0, hsub, jsRound_zero]
      norm_num

/-- Witness for `calculateChange_spec`: instantiated at `(15, 10)` and the
symmetric point `(7, 7)`. -/
theorem calculateChange_spec_witness :
    calculateChange 0 0 = ⟨0, "flat", 0, 0⟩ ∧
    calculateChange 15 0 = ⟨100, "up", 15, 0⟩ ∧
    calculateChange 7 7 = ⟨0, "flat", 7, 7⟩ := by
  refine ⟨?_, ?_, ?_⟩
  · exact (calculateChange_spec 0 0 le_rfl le_rfl).1 ⟨rfl, rfl⟩
  · exact (calculateChange_spec 15 0 (by norm_num) le_rfl).2.1 rfl (by norm_num)
  · exact (calculateChange_spec 7 7 (by norm_num) (by norm_num)).2.2.2

/-- C5: The CPA-specific delta obeys the inverted polarity and null cases:
with `currentCpa = currentSpend/currentConversions` when
`currentConversions > 0` (else null) and `previousCpa` analogous, it returns
`{0, flat}` when both are null, `{0, new}` when only previous is null,
`{-100, lost}` when only current is null, and otherwise
`percent = round((currentCpa-previousCpa)/previousCpa*100)` with direction
`'improving'` if percent < -5, `'worsening'` if percent > 5, else `'stable'` —
so a CPA decrease beyond the deadband is always classified improving. -/
theorem calculateCpaChange_spec (cs cc ps pc : ℚ) :
    (¬ cc > 0 → ¬ pc > 0 →
      calculateCpaChange cs cc ps pc = ⟨0, "flat", none, none⟩) ∧
    (cc > 0 → ¬ pc > 0 →
      calculateCpaChange cs cc ps pc = ⟨0, "new", some (cs / cc), none⟩) ∧
    (¬ cc > 0 → pc > 0 →
      calculateCpaChange cs cc ps pc = ⟨-100, "lost", none, some (ps / pc)⟩) ∧
    (cc > 0 → pc > 0 →
      (calculateCpaChange cs cc ps pc).percent =
        jsRound ((cs / cc - ps / pc) / (ps / pc) * 100) ∧
      ((calculateCpaChange cs cc ps pc).percent < -5 →
        (calculateCpaChange cs cc ps pc).direction = "improving") ∧
      ((calculateCpaChange cs cc ps pc).percent > 5 →
        (calculateCpaChange cs cc ps pc).direction = "worsening") ∧
      (-5 ≤ (calculateCpaChange cs cc ps pc).percent →
        (calculateCpaChange cs cc ps pc).percent ≤ 5 →
        (calculateCpaChange cs cc ps pc).direction = "stable")) := by
  refine ⟨?_, ?_, ?_, ?_⟩
  · intro h1 h2
    simp [calculateCpaChange, h1, h2]
  · intro h1 h2
    simp [calculateCpaChange, h1, h2]
  · intro h1 h2
    simp [calculateCpaChange, h1, h2]
  · intro h1 h2
    rw [calculateCpaChange_of_pos cs cc ps pc h1 h2]
    refine ⟨rfl, ?_, ?_, ?_⟩
    · intro h3
      simp only at h3 ⊢
      rw [if_pos h3]
    · intro h3
      simp only at h3 ⊢
      rw [if_neg (by omega), if_pos h3]
    · intro h3 h4
      simp only at h3 h4 ⊢
      rw [if_neg (by omega), if_neg (by omega)]

/-- Witness for `calculateCpaChange_spec`: a CPA halving (100/10 → 100/20,
i.e. CPA 10 → 5) is classified `improving`. -/
theorem calculateCpaChange_spec_witness :
    calculateCpaChange 0 0 0 0 = ⟨0, "flat", none, none⟩ ∧
    calculateCpaChange 100 20 100 0 = ⟨0, "new", some 5, none⟩ ∧
    calculateCpaChange 100 0 100 10 = ⟨-100, "lost", none, some 10⟩ ∧
    (calculateCpaChange 100 20 100 10).direction = "improving" := by
  have h4 := (calculateCpaChange_spec 100 20 100 10).2.2.2 (by norm_num) (by norm_num)
  refine ⟨?_, ?_, ?_, ?_⟩
  · exact (calculateCpaChange_spec 0 0 0 0).1 (by norm_num) (by norm_num)
  · have := (calculateCpaChange_spec 100 20 100 0).2.1 (by norm_num) (by norm_num)
    norm_num at this
    exact this
  · have := (calculateCpaChange_spec 100 0 100 10).2.2.1 (by norm_num) (by norm_num)
    norm_num at this
    exact this
  · refine h4.2.1 ?_
    rw [h4.1]
    unfold jsRound
    norm_num

/-! ### Creator momentum (src/lib/db.js lines 454-513)

The momentum input is the per-creator statistics record built by the
aggregation loop (lines 455-474): a name, the conversion sums for the
trailing 7-day and 7-to-14-day windows, and the (possibly null) number of
days since the last conversion.  The claims are about the classification
loop (lines 476-503) and the sort/truncate step (lines 505-513), so the
embedding starts from those statistics. -/

/-- One entry of the `creatorStats` map in `calculateHistoricalTrends`. -/
structure CreatorStat where
  name : String
  thisWeek : ℚ
  lastWeek : ℚ
  daysSinceConversion : Option ℤ
deriving DecidableEq, Repr

/-- Entry pushed onto the `rising` / `cooling` buckets. -/
structure MomentumEntry where
  name : String
  change : ℤ
  thisWeek : ℚ
  lastWeek : ℚ
deriving DecidableEq, Repr

/-- Entry pushed onto the `stalled` bucket. -/
structure StalledEntry where
  name : String
  daysSinceConversion : ℤ
  lastWeek : ℚ
deriving DecidableEq, Repr

/-- The `trends.creatorMomentum` record. -/
structure CreatorMomentum where
  rising : List MomentumEntry
  cooling : List MomentumEntry
  stalled : List StalledEntry
deriving DecidableEq, Repr

/-- Condition of the `rising` branch: `change.percent > 20 && thisWeek > 0`. -/
def risingCond (s : CreatorStat) : Bool :=
  decide (20 < (calculateChange s.thisWeek s.lastWeek).percent) && decide (0 < s.thisWeek)

/-- Condition of the `cooling` branch: `change.percent < -30 && lastWeek > 0`. -/
def coolingCond (s : CreatorStat) : Bool :=
  decide ((calculateChange s.thisWeek s.lastWeek).percent < -30) && decide (0 < s.lastWeek)

/-- Condition of the `stalled` branch:
`daysSinceConversion !== null && daysSinceConversion > 7 && lastWeek > 0`. -/
def stalledCond (s : CreatorStat) : Bool :=
  match s.daysSinceConversion with
  | some d => decide (7 < d) && decide (0 < s.lastWeek)
  | none => false

/-- The object pushed onto `rising` / `cooling`. -/
def mkTrendEntry (s : CreatorStat) : MomentumEntry :=
  ⟨s.name, (calculateChange s.thisWeek s.lastWeek).percent, s.thisWeek, s.lastWeek⟩

/-- The object pushed onto `stalled`. -/
def mkStalledEntry (s : CreatorStat) : StalledEntry :=
  ⟨s.name, s.daysSinceConversion.getD 0, s.lastWeek⟩

/-- One iteration of the classification loop (db.js lines 476-503): the
if/else-if chain appending the creator to at most one bucket. -/
def classifyStep (acc : CreatorMomentum) (s : CreatorStat) : CreatorMomentum :=
  if risingCond s then { acc with rising := acc.rising ++ [mkTrendEntry s] }
  else if coolingCond s then { acc with cooling := acc.cooling ++ [mkTrendEntry s] }
  else if stalledCond s then { acc with stalled := acc.stalled ++ [mkStalledEntry s] }
  else acc

/-- The classification loop over all creators (buckets before sorting and
truncation). -/
def momentumClassify (stats : List CreatorStat) : CreatorMomentum :=
  stats.foldl classifyStep ⟨[], [], []⟩

/-- `rising` comparator `(a, b) => b.change - a.change`: descending by
percent change. -/
def descByChange (a b : MomentumEntry) : Prop := b.change ≤ a.change

/-- `cooling` comparator `(a, b) => a.change - b.change`: ascending, most
negative first. -/
def ascByChange (a b : MomentumEntry) : Prop := a.change ≤ b.change

/-- `stalled` comparator `(a, b) => b.daysSinceConversion - a.daysSinceConversion`:
descending by days since last conversion. -/
def descByDays (a b : StalledEntry) : Prop :=
  b.daysSinceConversion ≤ a.daysSinceConversion

instance : DecidableRel descByChange := fun a b =>
  inferInstanceAs (Decidable (b.change ≤ a.change))

instance : DecidableRel ascByChange := fun a b =>
  inferInstanceAs (Decidable (a.change ≤ b.change))

instance : DecidableRel descByDays := fun a b =>
  inferInstanceAs (Decidable (b.daysSinceConversion ≤ a.daysSinceConversion))

instance : IsTotal MomentumEntry descByChange :=
  ⟨fun a b => le_total b.change a.change⟩

instance : IsTrans MomentumEntry descByChange :=
  ⟨fun _ _ _ h1 h2 => le_trans h2 h1⟩

instance : IsTotal MomentumEntry ascByChange :=
  ⟨fun a b => le_total a.change b.change⟩

instance : IsTrans MomentumEntry ascByChange :=
  ⟨fun _ _ _ h1 h2 => le_trans h1 h2⟩

instance : IsTotal StalledEntry descByDays :=
  ⟨fun a b => le_total b.daysSinceConversion a.daysSinceConversion⟩

instance : IsTrans StalledEntry descByDays :=
  ⟨fun _ _ _ h1 h2 => le_trans h2 h1⟩

/-- The full momentum report: classification, then each bucket sorted by its
comparator (db.js lines 505-508) and truncated to 5 entries (lines 510-513). -/
def creatorMomentum (stats : List CreatorStat) : CreatorMomentum :=
  let m := momentumClassify stats
  ⟨(List.insertionSort descByChange m.rising).take 5,
   (List.insertionSort ascByChange m.cooling).take 5,
   (List.insertionSort descByDays m.stalled).take 5⟩

lemma classifyStep_rising (acc : CreatorMomentum) (s : CreatorStat) :
    (classifyStep acc s).rising =
      acc.rising ++ if risingCond s then [mkTrendEntry s] else [] := by
  unfold classifyStep
  by_cases h1 : risingCond s
  · simp [h1]
  · by_cases h2 : coolingCond s
    · simp [h1, h2]
    · by_cases h3 : stalledCond s <;> simp [h1, h2, h3]

lemma classifyStep_cooling (acc : CreatorMomentum) (s : CreatorStat) :
    (classifyStep acc s).cooling =
      acc.cooling ++ if ¬ risingCond s ∧ coolingCond s then [mkTrendEntry s] else [] := by
  unfold classifyStep
  by_cases h1 : risingCond s
  · simp [h1]
  · by_cases h2 : coolingCond s
    · simp [h1, h2]
    · by_cases h3 : stalledCond s <;> simp [h1, h2, h3]

lemma classifyStep_stalled (acc : CreatorMomentum) (s : CreatorStat) :
    (classifyStep acc s).stalled =
      acc.stalled ++
        if ¬ risingCond s ∧ ¬ coolingCond s ∧ stalledCond s then [mkStalledEntry s]
        else [] := by
  unfold classifyStep
  by_cases h1 : risingCond s
  · simp [h1]
  · by_cases h2 : coolingCond s
    · simp [h1, h2]
    · by_cases h3 : stalledCond s <;> simp [h1, h2, h3]

lemma momentumClassify_go_rising (stats : List CreatorStat) (acc : CreatorMomentum) :
    (stats.foldl classifyStep acc).rising =
      acc.rising ++ (stats.filter risingCond).map mkTrendEntry := by
  induction stats generalizing acc with
  | nil => simp
  | cons s t ih =>
    rw [List.foldl_cons, ih]
    rw [classifyStep_rising]
    by_cases h1 : risingCond s <;> simp [h1]

lemma momentumClassify_go_cooling (stats : List CreatorStat) (acc : CreatorMomentum) :
    (stats.foldl classifyStep acc).cooling =
      acc.cooling ++
        (stats.filter (fun s => !risingCond s && coolingCond s)).map mkTrendEntry := by
  induction stats generalizing acc with
  | nil => simp
  | cons s t ih =>
    rw [List.foldl_cons, ih]
    rw [classifyStep_cooling]
    by_cases h1 : risingCond s <;> by_cases h2 : coolingCond s <;> simp [h1, h2]

lemma momentumClassify_go_stalled (stats : List CreatorStat) (acc : CreatorMomentum) :
    (stats.foldl classifyStep acc).stalled =
      acc.stalled ++
        (stats.filter
          (fun s => !risingCond s && !coolingCond s && stalledCond s)).map mkStalledEntry := by
  induction stats generalizing acc with
  | nil => simp
  | cons s t ih =>
    rw [List.foldl_cons, ih]
    rw [classifyStep_stalled]
    by_cases h1 : risingCond s <;> by_cases h2 : coolingCond s <;>
      by_cases h3 : stalledCond s <;> simp [h1, h2, h3]

lemma momentumClassify_rising (stats : List CreatorStat) :
    (momentumClassify stats).rising = (stats.filter risingCond).map mkTrendEntry := by
  unfold momentumClassify
  rw [momentumClassify_go_rising]
  rfl

lemma momentumClassify_cooling (stats : List CreatorStat) :
    (momentumClassify stats).cooling =
      (stats.filter (fun s => !risingCond s && coolingCond s)).map mkTrendEntry := by
  unfold momentumClassify
  rw [momentumClassify_go_cooling]
  rfl

lemma momentumClassify_stalled (stats : List CreatorStat) :
    (momentumClassify stats).stalled =
      (stats.filter
        (fun s => !risingCond s && !coolingCond s && stalledCond s)).map mkStalledEntry := by
  unfold momentumClassify
  rw [momentumClassify_go_stalled]
  rfl

lemma creatorMomentum_rising (stats : List CreatorStat) :
    (creatorMomentum stats).rising =
      (List.insertionSort descByChange (momentumClassify stats).rising).take 5 := rfl

lemma creatorMomentum_cooling (stats : List CreatorStat) :
    (creatorMomentum stats).cooling =
      (List.insertionSort ascByChange (momentumClassify stats).cooling).take 5 := rfl

lemma creatorMomentum_stalled (stats : List CreatorStat) :
    (creatorMomentum stats).stalled =
      (List.insertionSort descByDays (momentumClassify stats).stalled).take 5 := rfl

lemma risingCond_iff (s : CreatorStat) :
    risingCond s = true ↔
      20 < (calculateChange s.thisWeek s.lastWeek).percent ∧ 0 < s.thisWeek := by
  simp [risingCond]

lemma coolingCond_iff (s : CreatorStat) :
    coolingCond s = true ↔
      (calculateChange s.thisWeek s.lastWeek).percent < -30 ∧ 0 < s.lastWeek := by
  simp [coolingCond]

lemma stalledCond_iff (s : CreatorStat) :
    stalledCond s = true ↔
      (∃ d, s.daysSinceConversion = some d ∧ 7 < d) ∧ 0 < s.lastWeek := by
  unfold stalledCond
  cases h : s.daysSinceConversion with
  | none => simp
  | some d => simp

lemma cooling_filter_iff (s : CreatorStat) :
    (!risingCond s && coolingCond s) = true ↔
      (¬ (20 < (calculateChange s.thisWeek s.lastWeek).percent ∧ 0 < s.thisWeek) ∧
        ((calculateChange s.thisWeek s.lastWeek).percent < -30 ∧ 0 < s.lastWeek)) := by
  rw [Bool.and_eq_true, Bool.not_eq_true', Bool.eq_false_iff]
  simp only [ne_eq]
  rw [risingCond_iff, coolingCond_iff]

lemma stalled_filter_iff (s : CreatorStat) :
    (!risingCond s && !coolingCond s && stalledCond s) = true ↔
      (¬ (20 < (calculateChange s.thisWeek s.lastWeek).percent ∧ 0 < s.thisWeek) ∧
        ¬ ((calculateChange s.thisWeek s.lastWeek).percent < -30 ∧ 0 < s.lastWeek) ∧
        ((∃ d, s.daysSinceConversion = some d ∧ 7 < d) ∧ 0 < s.lastWeek)) := by
  rw [Bool.and_eq_true, Bool.and_eq_true, Bool.not_eq_true', Bool.not_eq_true',
    Bool.eq_false_iff, Bool.eq_false_iff]
  simp only [ne_eq]
  rw [risingCond_iff, coolingCond_iff, stalledCond_iff, and_assoc]

/-- Any name occurring in the truncated, sorted `rising` bucket names a
creator satisfying the `rising` condition. -/
lemma name_in_final_rising {stats : List CreatorStat} {n : String}
    (h : ∃ e ∈ (creatorMomentum stats).rising, e.name = n) :
    ∃ s ∈ stats, risingCond s = true ∧ s.name = n := by
  obtain ⟨e, he, hname⟩ := h
  rw [creatorMomentum_rising] at he
  have he2 : e ∈ (momentumClassify stats).rising :=
    (List.perm_insertionSort descByChange _).mem_iff.mp (List.take_subset 5 _ he)
  rw [momentumClassify_rising] at he2
  obtain ⟨s, hsmem, hse⟩ := List.mem_map.mp he2
  obtain ⟨h1, h2⟩ := List.mem_filter.mp hsmem
  exact ⟨s, h1, h2, by rw [← hname, ← hse]; rfl⟩

lemma name_in_final_cooling {stats : List CreatorStat} {n : String}
    (h : ∃ e ∈ (creatorMomentum stats).cooling, e.name = n) :
    ∃ s ∈ stats, (!risingCond s && coolingCond s) = true ∧ s.name = n := by
  obtain ⟨e, he, hname⟩ := h
  rw [creatorMomentum_cooling] at he
  have he2 : e ∈ (momentumClassify stats).cooling :=
    (List.perm_insertionSort ascByChange _).mem_iff.mp (List.take_subset 5 _ he)
  rw [momentumClassify_cooling] at he2
  obtain ⟨s, hsmem, hse⟩ := List.mem_map.mp he2
  obtain ⟨h1, h2⟩ := List.mem_filter.mp hsmem
  exact ⟨s, h1, h2, by rw [← hname, ← hse]; rfl⟩

lemma name_in_final_stalled {stats : List CreatorStat} {n : String}
    (h : ∃ e ∈ (creatorMomentum stats).stalled, e.name = n) :
    ∃ s ∈ stats, (!risingCond s && !coolingCond s && stalledCond s) = true ∧ s.name = n := by
  obtain ⟨e, he, hname⟩ := h
  rw [creatorMomentum_stalled] at he
  have he2 : e ∈ (momentumClassify stats).stalled :=
    (List.perm_insertionSort descByDays _).mem_iff.mp (List.take_subset 5 _ he)
  rw [momentumClassify_stalled] at he2
  obtain ⟨s, hsmem, hse⟩ := List.mem_map.mp he2
  obtain ⟨h1, h2⟩ := List.mem_filter.mp hsmem
  exact ⟨s, h1, h2, by rw [← hname, ← hse]; rfl⟩

/-- The momentum example creator of the claim:
`lastWeek=8, thisWeek=2, daysSinceConversion=3`. -/
def exampleCreator : CreatorStat := ⟨"creator-a", 2, 8, some 3⟩

lemma calculateChange_example : calculateChange 2 8 = ⟨-75, "down", 2, 8⟩ := by
  have hjs : jsRound ((2 - 8 : ℚ) / 8 * 100) = -75 := by
    unfold jsRound
    norm_num
  rw [calculateChange_of_ne 2 8 (by norm_num), hjs]
  norm_num

lemma exampleCreator_not_rising : risingCond exampleCreator = false := by
  simp only [risingCond, exampleCreator, calculateChange_example]
  simp

lemma exampleCreator_cooling : coolingCond exampleCreator = true := by
  simp only [coolingCond, exampleCreator, calculateChange_example]
  norm_num

lemma exampleCreator_entry :
    mkTrendEntry exampleCreator = ⟨"creator-a", -75, 2, 8⟩ := by
  simp [mkTrendEntry, exampleCreator, calculateChange_example]

lemma exampleCreator_momentum :
    creatorMomentum [exampleCreator] = ⟨[], [⟨"creator-a", -75, 2, 8⟩], []⟩ := by
  have hclass : momentumClassify [exampleCreator] =
      ⟨[], [⟨"creator-a", -75, 2, 8⟩], []⟩ := by
    unfold momentumClassify
    rw [List.foldl_cons, List.foldl_nil]
    unfold classifyStep
    rw [exampleCreator_not_rising, exampleCreator_cooling, exampleCreator_entry]
    simp
  unfold creatorMomentum
  rw [hclass]
  simp [List.insertionSort, List.orderedInsert]

/-- C6: Creator momentum classification is a mutually exclusive priority
chain: for every creator, it is `rising` iff `change.percent > 20` and
`thisWeek > 0`; else `cooling` iff `change.percent < -30` and `lastWeek > 0`;
else `stalled` iff `daysSinceConversion > 7` and `lastWeek > 0`; else the
creator appears in no bucket — so no creator name ever appears in more than
one of {rising, cooling, stalled}, and a creator with `lastWeek=8`,
`thisWeek=2`, `daysSinceConversion=3` is classified cooling, not stalled. -/
theorem momentum_classification_spec (stats : List CreatorStat)
    (hnodup : (stats.map CreatorStat.name).Nodup) :
    (∀ s ∈ stats,
      ((∃ e ∈ (momentumClassify stats).rising, e.name = s.name) ↔
        (20 < (calculateChange s.thisWeek s.lastWeek).percent ∧ 0 < s.thisWeek)) ∧
      ((∃ e ∈ (momentumClassify stats).cooling, e.name = s.name) ↔
        (¬ (20 < (calculateChange s.thisWeek s.lastWeek).percent ∧ 0 < s.thisWeek) ∧
          ((calculateChange s.thisWeek s.lastWeek).percent < -30 ∧ 0 < s.lastWeek))) ∧
      ((∃ e ∈ (momentumClassify stats).stalled, e.name = s.name) ↔
        (¬ (20 < (calculateChange s.thisWeek s.lastWeek).percent ∧ 0 < s.thisWeek) ∧
          ¬ ((calculateChange s.thisWeek s.lastWeek).percent < -30 ∧ 0 < s.lastWeek) ∧
          ((∃ d, s.daysSinceConversion = some d ∧ 7 < d) ∧ 0 < s.lastWeek)))) ∧
    (∀ n : String,
      ¬ ((∃ e ∈ (creatorMomentum stats).rising, e.name = n) ∧
        (∃ e ∈ (creatorMomentum stats).cooling, e.name = n)) ∧
      ¬ ((∃ e ∈ (creatorMomentum stats).rising, e.name = n) ∧
        (∃ e ∈ (creatorMomentum stats).stalled, e.name = n)) ∧
      ¬ ((∃ e ∈ (creatorMomentum stats).cooling, e.name = n) ∧
        (∃ e ∈ (creatorMomentum stats).stalled, e.name = n))) ∧
    creatorMomentum [exampleCreator] = ⟨[], [⟨"creator-a", -75, 2, 8⟩], []⟩ := by
  have hinj : ∀ x ∈ stats, ∀ y ∈ stats, x.name = y.name → x = y :=
    fun x hx y hy hxy => List.inj_on_of_nodup_map hnodup hx hy hxy
  refine ⟨?_, ?_, exampleCreator_momentum⟩
  · intro s hs
    refine ⟨?_, ?_, ?_⟩
    · rw [momentumClassify_rising, ← risingCond_iff]
      constructor
      · rintro ⟨e, he, hname⟩
        obtain ⟨s', hs'mem, hs'e⟩ := List.mem_map.mp he
        obtain ⟨h1, h2⟩ := List.mem_filter.mp hs'mem
        have heq : s' = s := hinj _ h1 _ hs (by rw [← hname, ← hs'e]; rfl)
        rwa [heq] at h2
      · intro hcond
        exact ⟨mkTrendEntry s,
          List.mem_map_of_mem _ (List.mem_filter.mpr ⟨hs, hcond⟩), rfl⟩
    · rw [momentumClassify_cooling, ← cooling_filter_iff]
      constructor
      · rintro ⟨e, he, hname⟩
        obtain ⟨s', hs'mem, hs'e⟩ := List.mem_map.mp he
        obtain ⟨h1, h2⟩ := List.mem_filter.mp hs'mem
        have heq : s' = s := hinj _ h1 _ hs (by rw [← hname, ← hs'e]; rfl)
        rwa [heq] at h2
      · intro hcond
        exact ⟨mkTrendEntry s,
          List.mem_map_of_mem _ (List.mem_filter.mpr ⟨hs, hcond⟩), rfl⟩
    · rw [momentumClassify_stalled, ← stalled_filter_iff]
      constructor
      · rintro ⟨e, he, hname⟩
        obtain ⟨s', hs'mem, hs'e⟩ := List.mem_map.mp he
        obtain ⟨h1, h2⟩ := List.mem_filter.mp hs'mem
        have heq : s' = s := hinj _ h1 _ hs (by rw [← hname, ← hs'e]; rfl)
        rwa [heq] at h2
      · intro hcond
        exact ⟨mkStalledEntry s,
          List.mem_map_of_mem _ (List.mem_filter.mpr ⟨hs, hcond⟩), rfl⟩
  · intro n
    refine ⟨?_, ?_, ?_⟩
    · rintro ⟨h1, h2⟩
      obtain ⟨s1, hm1, hc1, hn1⟩ := name_in_final_rising h1
      obtain ⟨s2, hm2, hc2, hn2⟩ := name_in_final_cooling h2
      have heq : s1 = s2 := hinj _ hm1 _ hm2 (hn1.trans hn2.symm)
      subst heq
      simp only [Bool.and_eq_true, Bool.not_eq_true'] at hc2
      exact absurd hc1 (by simp [hc2.1])
    · rintro ⟨h1, h2⟩
      obtain ⟨s1, hm1, hc1, hn1⟩ := name_in_final_rising h1
      obtain ⟨s2, hm2, hc2, hn2⟩ := name_in_final_stalled h2
      have heq : s1 = s2 := hinj _ hm1 _ hm2 (hn1.trans hn2.symm)
      subst heq
      simp only [Bool.and_eq_true, Bool.not_eq_true'] at hc2
      exact absurd hc1 (by simp [hc2.1.1])
    · rintro ⟨h1, h2⟩
      obtain ⟨s1, hm1, hc1, hn1⟩ := name_in_final_cooling h1
      obtain ⟨s2, hm2, hc2, hn2⟩ := name_in_final_stalled h2
      have heq : s1 = s2 := hinj _ hm1 _ hm2 (hn1.trans hn2.symm)
      subst heq
      simp only [Bool.and_eq_true, Bool.not_eq_true'] at hc1 hc2
      exact absurd hc1.2 (by simp [hc2.1.2])

/-- Witness for `momentum_classification_spec`: the single-creator list with
the claim's example statistics (names trivially distinct). -/
theorem momentum_classification_spec_witness :
    creatorMomentum [exampleCreator] = ⟨[], [⟨"creator-a", -75, 2, 8⟩], []⟩ :=
  (momentum_classification_spec [exampleCreator] (by simp)).2.2

/-- C7: Each momentum bucket in the returned report is sorted by signal
strength — rising descending by change percent, cooling ascending (most
negative first), stalled descending by `daysSinceConversion` — and contains
at most 5 entries. -/
theorem momentum_sort_truncate_spec (stats : List CreatorStat) :
    ((creatorMomentum stats).rising.Sorted descByChange ∧
      (creatorMomentum stats).rising.length ≤ 5) ∧
    ((creatorMomentum stats).cooling.Sorted ascByChange ∧
      (creatorMomentum stats).cooling.length ≤ 5) ∧
    ((creatorMomentum stats).stalled.Sorted descByDays ∧
      (creatorMomentum stats).stalled.length ≤ 5) := by
  refine ⟨⟨?_, ?_⟩, ⟨?_, ?_⟩, ⟨?_, ?_⟩⟩
  · rw [creatorMomentum_rising]
    exact (List.sorted_insertionSort descByChange _).sublist (List.take_sublist 5 _)
  · rw [creatorMomentum_rising]
    simpa using List.length_take_le 5 _
  · rw [creatorMomentum_cooling]
    exact (List.sorted_insertionSort ascByChange _).sublist (List.take_sublist 5 _)
  · rw [creatorMomentum_cooling]
    simpa using List.length_take_le 5 _
  · rw [creatorMomentum_stalled]
    exact (List.sorted_insertionSort descByDays _).sublist (List.take_sublist 5 _)
  · rw [creatorMomentum_stalled]
    simpa using List.length_take_le 5 _

/-! ### Benchmark contribution (src/unnamed/part_003, `contributeToBenchmarks`)

The SQL INSERT is modelled by returning the list of rows the function
inserts into `benchmark_data`; an empty list means no storage write.  The
`Math.random()` noise factors are made explicit parameters (`factor i j` is
the factor for the `j`-th noised value of the `i`-th platform); the source
draws each factor uniformly from `[0.9, 1.1)`. -/

/-- Per-platform aggregate statistics (built in `src/lib/db.js` lines
229-246: `count` counts creators on the platform, `conversions`/`views`/
`clicks`/`spent` are sums over those creators). -/
structure PlatformStats where
  count : ℚ
  spent : ℚ
  conversions : ℚ
  views : ℚ
  clicks : ℚ
deriving DecidableEq, Repr

/-- The influencer fields `contributeToBenchmarks` reads. -/
structure Influencer where
  channel_url : String
  content_count : ℚ
deriving DecidableEq, Repr

/-- One row inserted into `benchmark_data`. -/
structure ContributionRow where
  platform : String
  price_tier : String
  cpa : Option ℚ
  cpc : Option ℚ
  cpm : Option ℚ
  conversion_rate : Option ℚ
  content_delivery_rate : Option ℚ
  views_per_dollar : Option ℚ
deriving DecidableEq, Repr

/-- JS `toLowerCase` on the ASCII strings appearing in this code. -/
def strToLower (s : String) : String := String.mk (s.data.map Char.toLower)

/-- `needle` occurs as a prefix of `hay` (char-list level). -/
def charPrefix : List Char → List Char → Bool
  | [], _ => true
  | _ :: _, [] => false
  | a :: as, b :: bs => a = b && charPrefix as bs

/-- `needle` occurs as a contiguous substring of `hay`. -/
def charContains (needle : List Char) : List Char → Bool
  | [] => charPrefix needle []
  | c :: t => charPrefix needle (c :: t) || charContains needle t

/-- JS `hay.includes(needle)`. -/
def stringIncludes (hay needle : String) : Bool := charContains needle.data hay.data

/-- `addNoise` with the uniform random factor made explicit; the source
computes `val * (0.9 + Math.random() * 0.2)`, a factor in `[0.9, 1.1)`,
and passes `null` through. -/
def addNoise (factor : ℚ) (val : Option ℚ) : Option ℚ := val.map (· * factor)

/-- `roundTo(val, precision) = Math.round(val / precision) * precision`
on a non-null value. -/
def roundToVal (val precision : ℚ) : ℚ := (jsRound (val / precision) : ℚ) * precision

/-- `roundTo` as in the source: `null` passes through. -/
def roundTo (val : Option ℚ) (precision : ℚ) : Option ℚ :=
  val.map (roundToVal · precision)

/-- `cpa = conversions > 0 ? spent / conversions : null`. -/
def statsCpa (stats : PlatformStats) : Option ℚ :=
  if 0 < stats.conversions then some (stats.spent / stats.conversions) else none

/-- `cpc = clicks > 0 ? spent / clicks : null`. -/
def statsCpc (stats : PlatformStats) : Option ℚ :=
  if 0 < stats.clicks then some (stats.spent / stats.clicks) else none

/-- `cpm = views > 0 ? (spent / views) * 1000 : null`. -/
def statsCpm (stats : PlatformStats) : Option ℚ :=
  if 0 < stats.views then some (stats.spent / stats.views * 1000) else none

/-- `conversionRate = views > 0 ? conversions / views : null`. -/
def statsConversionRate (stats : PlatformStats) : Option ℚ :=
  if 0 < stats.views then some (stats.conversions / stats.views) else none

/-- `viewsPerDollar = spent > 0 ? views / spent : null`. -/
def statsViewsPerDollar (stats : PlatformStats) : Option ℚ :=
  if 0 < stats.spent then some (stats.views / stats.spent) else none

/-- `avgPrice < 1000 ? 'small' : avgPrice < 5000 ? 'medium' : 'large'` with
`avgPrice = spent / count`. -/
def priceTierOf (stats : PlatformStats) : String :=
  if stats.spent / stats.count < 1000 then "small"
  else if stats.spent / stats.count < 5000 then "medium"
  else "large"

/-- Content-delivery rate for a platform: percentage of that platform's
creators (matched by `channel_url` substring) with `content_count > 0`;
`null` when the platform has no matched creators. -/
def contentDeliveryRateOf (platform : String) (influencers : List Influencer) :
    Option ℚ :=
  let platformCreators :=
    influencers.filter fun i => stringIncludes (strToLower i.channel_url) (strToLower platform)
  let withContent := platformCreators.filter fun i => 0 < i.content_count
  if 0 < platformCreators.length then
    some ((withContent.length : ℚ) / (platformCreators.length : ℚ) * 100)
  else none

/-- The allow-list of major platforms. -/
def majorPlatforms : List String := ["youtube", "tiktok", "instagram", "twitch"]

/-- The `benchmark_data` row built for one platform (the INSERT VALUES of
the source, lines 103-117), with the six noise factors explicit. -/
def mkContributionRow (platform : String) (stats : PlatformStats)
    (influencers : List Influencer) (factor : ℕ → ℚ) : ContributionRow :=
  ⟨platform, priceTierOf stats,
    roundTo (addNoise (factor 0) (statsCpa stats)) 5,
    roundTo (addNoise (factor 1) (statsCpc stats)) (1/10),
    roundTo (addNoise (factor 2) (statsCpm stats)) 1,
    roundTo (addNoise (factor 3) (statsConversionRate stats)) (1/10000),
    roundTo (addNoise (factor 4) (contentDeliveryRateOf platform influencers)) 5,
    roundTo (addNoise (factor 5) (statsViewsPerDollar stats)) 10⟩

/-- `contributeToBenchmarks(sql, data)` (part_003 lines 50-123) as a pure
function returning the rows it inserts. `platforms` is the entries of the
`platforms` object in iteration order. -/
def contributeToBenchmarks (platforms : List (String × PlatformStats))
    (influencers : List Influencer) (factor : ℕ → ℕ → ℚ) : List ContributionRow :=
  let platformCount := (platforms.filter fun p => 0 < p.2.count).length
  if platformCount < 2 ∨ influencers.length < 5 then []
  else
    platforms.enum.filterMap fun pi =>
      let platform := pi.2.1
      let stats := pi.2.2
      if stats.count < 3 then none
      else if ¬ (majorPlatforms.contains (strToLower platform)) then none
      else if statsCpa stats ≠ none ∨ statsConversionRate stats ≠ none then
        some (mkContributionRow platform stats influencers (factor pi.1))
      else none

/-- The quantity the spec's contribution gate is worded in terms of
(for the refinement comparison with the source's gate): the number of
platforms with at least one converting creator, i.e. with a positive
conversion sum.  The source instead counts platforms with `count > 0`. -/
def specConvertingPlatformCount (platforms : List (String × PlatformStats)) : ℕ :=
  (platforms.filter fun p => 0 < p.2.conversions).length

/-- C1 counterexample input: two platforms with creators (`count > 0`), only
one of which converts, and exactly 5 influencers. -/
def c1Platforms : List (String × PlatformStats) :=
  [("youtube", ⟨3, 300, 6, 1000, 30⟩), ("tiktok", ⟨2, 100, 0, 0, 0⟩)]

/-- The five influencers of the C1 counterexample tenant. -/
def c1Influencers : List Influencer :=
  [⟨"youtube.com/a", 1⟩, ⟨"youtube.com/b", 1⟩, ⟨"youtube.com/c", 0⟩,
   ⟨"tiktok.com/d", 0⟩, ⟨"tiktok.com/e", 0⟩]

/-- C1 (amended): for every input where fewer than 2 platforms have at least
one creator (`count > 0`), or where the total influencer count is below 5,
`contributeToBenchmarks` performs no storage write. -/
theorem contribution_gate_amended (platforms : List (String × PlatformStats))
    (influencers : List Influencer) (factor : ℕ → ℕ → ℚ)
    (h : (platforms.filter fun p => 0 < p.2.count).length < 2 ∨
      influencers.length < 5) :
    contributeToBenchmarks platforms influencers factor = [] := by
  simp only [contributeToBenchmarks]
  rw [if_pos h]

/-- Witness for `contribution_gate_amended`: a single-platform tenant. -/
theorem contribution_gate_amended_witness :
    contributeToBenchmarks [("youtube", ⟨5, 100, 2, 10, 1⟩)] c1Influencers
      (fun _ _ => 1) = [] :=
  contribution_gate_amended _ _ _
    (Or.inl (lt_of_le_of_lt (List.length_filter_le _ _) (by norm_num)))

/-- C1 counterexample: the claim as stated is false on the code.  The tenant
`c1Platforms`/`c1Influencers` has 5 creators and only 1 converting platform,
yet `contributeToBenchmarks` does perform a storage write: the source gate
counts platforms with `count > 0` (any creators), not converting platforms. -/
theorem contribution_gate_counterexample :
    specConvertingPlatformCount c1Platforms = 1 ∧
    c1Influencers.length = 5 ∧
    contributeToBenchmarks c1Platforms c1Influencers (fun _ _ => 1) ≠ [] := by
  refine ⟨?_, rfl, ?_⟩
  · norm_num [specConvertingPlatformCount, c1Platforms, List.filter]
  · norm_num [contributeToBenchmarks, c1Platforms, c1Influencers, List.filter,
      majorPlatforms, statsCpa, statsConversionRate, List.enum, List.enumFrom,
      List.filterMap,
      show strToLower "youtube" = "youtube" from by decide,
      show strToLower "tiktok" = "tiktok" from by decide]
    simp

/-! ### Noise bounds (claim C8) -/

lemma jsRound_abs_le (x : ℚ) : |(jsRound x : ℚ) - x| ≤ 1/2 := by
  unfold jsRound
  rw [abs_le]
  constructor
  · have h := Int.sub_one_lt_floor (x + 1/2)
    push_cast at h ⊢
    linarith
  · have h := Int.floor_le (x + 1/2)
    push_cast at h ⊢
    linarith

/-- Bucket rounding moves a value by at most half a bucket width. -/
lemma roundToVal_abs_le (y prec : ℚ) (hp : 0 < prec) :
    |roundToVal y prec - y| ≤ prec / 2 := by
  have hne : prec ≠ 0 := hp.ne'
  have key : roundToVal y prec - y = ((jsRound (y / prec) : ℚ) - y / prec) * prec := by
    unfold roundToVal
    field_simp
  rw [key, abs_mul, abs_of_pos hp]
  have h := jsRound_abs_le (y / prec)
  calc |(jsRound (y / prec) : ℚ) - y / prec| * prec ≤ (1/2) * prec :=
        mul_le_mul_of_nonneg_right h hp.le
    _ = prec / 2 := by ring

/-- Core noise bound: a non-negative value multiplied by a factor in
`[0.9, 1.1]` and bucket-rounded stays within `v/10 + prec/2` of `v`. -/
lemma roundTo_noise_bound (v f prec : ℚ) (hv : 0 ≤ v)
    (hf1 : 9/10 ≤ f) (hf2 : f ≤ 11/10) (hp : 0 < prec) :
    |roundToVal (v * f) prec - v| ≤ v/10 + prec/2 := by
  have h1 : |roundToVal (v * f) prec - v * f| ≤ prec / 2 :=
    roundToVal_abs_le (v * f) prec hp
  have h2 : |v * f - v| ≤ v / 10 := by
    rw [show v * f - v = v * (f - 1) by ring, abs_mul, abs_of_nonneg hv]
    have h3 : |f - 1| ≤ 1/10 := by
      rw [abs_le]
      constructor <;> linarith
    calc v * |f - 1| ≤ v * (1/10) := mul_le_mul_of_nonneg_left h3 hv
      _ = v / 10 := by ring
  calc |roundToVal (v * f) prec - v|
      ≤ |roundToVal (v * f) prec - v * f| + |v * f - v| := abs_sub_le _ _ _
    _ ≤ prec / 2 + v / 10 := add_le_add h1 h2
    _ = v / 10 + prec / 2 := by ring

/-- The generic step used for each stored field: if the stored (noised,
bucket-rounded) value is non-null then the pre-noise value was non-null and
the stored value is within `v/10 + prec/2` of it. -/
lemma roundTo_addNoise_bound {x : Option ℚ} {w f prec : ℚ}
    (hx : ∀ v, x = some v → 0 ≤ v)
    (hw : roundTo (addNoise f x) prec = some w)
    (hf1 : 9/10 ≤ f) (hf2 : f ≤ 11/10) (hp : 0 < prec) :
    ∃ v, x = some v ∧ |w - v| ≤ v/10 + prec/2 := by
  cases hxv : x with
  | none =>
    rw [hxv] at hw
    simp [roundTo, addNoise] at hw
  | some v =>
    rw [hxv] at hw
    simp only [roundTo, addNoise, Option.map_some] at hw
    have hval : roundToVal (v * f) prec = w := Option.some.inj hw
    have hb := roundTo_noise_bound v f prec (hx v hxv) hf1 hf2 hp
    rw [hval] at hb
    exact ⟨v, rfl, hb⟩

lemma statsCpa_nonneg {stats : PlatformStats} (hs : 0 ≤ stats.spent) :
    ∀ v, statsCpa stats = some v → 0 ≤ v := by
  intro v hv
  unfold statsCpa at hv
  by_cases hc : 0 < stats.conversions
  · rw [if_pos hc] at hv
    rw [← Option.some.inj hv]
    exact div_nonneg hs hc.le
  · rw [if_neg hc] at hv
    cases hv

lemma statsCpc_nonneg {stats : PlatformStats} (hs : 0 ≤ stats.spent) :
    ∀ v, statsCpc stats = some v → 0 ≤ v := by
  intro v hv
  unfold statsCpc at hv
  by_cases hc : 0 < stats.clicks
  · rw [if_pos hc] at hv
    rw [← Option.some.inj hv]
    exact div_nonneg hs hc.le
  · rw [if_neg hc] at hv
    cases hv

lemma statsCpm_nonneg {stats : PlatformStats} (hs : 0 ≤ stats.spent) :
    ∀ v, statsCpm stats = some v → 0 ≤ v := by
  intro v hv
  unfold statsCpm at hv
  by_cases hc : 0 < stats.views
  · rw [if_pos hc] at hv
    rw [← Option.some.inj hv]
    have := div_nonneg hs hc.le
    positivity
  · rw [if_neg hc] at hv
    cases hv

lemma statsConversionRate_nonneg {stats : PlatformStats}
    (hs : 0 ≤ stats.conversions) :
    ∀ v, statsConversionRate stats = some v → 0 ≤ v := by
  intro v hv
  unfold statsConversionRate at hv
  by_cases hc : 0 < stats.views
  · rw [if_pos hc] at hv
    rw [← Option.some.inj hv]
    exact div_nonneg hs hc.le
  · rw [if_neg hc] at hv
    cases hv

lemma statsViewsPerDollar_nonneg {stats : PlatformStats} (hs : 0 ≤ stats.views) :
    ∀ v, statsViewsPerDollar stats = some v → 0 ≤ v := by
  intro v hv
  unfold statsViewsPerDollar at hv
  by_cases hc : 0 < stats.spent
  · rw [if_pos hc] at hv
    rw [← Option.some.inj hv]
    exact div_nonneg hs hc.le
  · rw [if_neg hc] at hv
    cases hv

lemma contentDeliveryRateOf_nonneg (platform : String) (influencers : List Influencer) :
    ∀ v, contentDeliveryRateOf platform influencers = some v → 0 ≤ v := by
  intro v hv
  simp only [contentDeliveryRateOf] at hv
  split at hv
  · rw [← Option.some.inj hv]
    positivity
  · cases hv

/-- C8: For every non-null numeric metric value v prepared for benchmark
storage, the stored value `roundTo(addNoise(v), bucket)` lies within ±10% of
v, after multiplying by an independent uniform factor in `[0.9, 1.1]` and
rounding to the metric-specific bucket width (CPA to nearest $5, CPC nearest
$0.10, CPM nearest $1, conversion-rate nearest 0.0001, content-delivery-rate
nearest 5%, views-per-dollar nearest 10), with the post-bucket-rounding
tolerance (half a bucket width) included. -/
theorem noise_bound_spec (platform : String) (stats : PlatformStats)
    (influencers : List Influencer) (factor : ℕ → ℚ)
    (hf : ∀ j, 9/10 ≤ factor j ∧ factor j ≤ 11/10)
    (hspent : 0 ≤ stats.spent) (hconv : 0 ≤ stats.conversions)
    (hviews : 0 ≤ stats.views) :
    (∀ w, (mkContributionRow platform stats influencers factor).cpa = some w →
      ∃ v, statsCpa stats = some v ∧ |w - v| ≤ v/10 + 5/2) ∧
    (∀ w, (mkContributionRow platform stats influencers factor).cpc = some w →
      ∃ v, statsCpc stats = some v ∧ |w - v| ≤ v/10 + (1/10)/2) ∧
    (∀ w, (mkContributionRow platform stats influencers factor).cpm = some w →
      ∃ v, statsCpm stats = some v ∧ |w - v| ≤ v/10 + 1/2) ∧
    (∀ w, (mkContributionRow platform stats influencers factor).conversion_rate = some w →
      ∃ v, statsConversionRate stats = some v ∧ |w - v| ≤ v/10 + (1/10000)/2) ∧
    (∀ w, (mkContributionRow platform stats influencers factor).content_delivery_rate = some w →
      ∃ v, contentDeliveryRateOf platform influencers = some v ∧ |w - v| ≤ v/10 + 5/2) ∧
    (∀ w, (mkContributionRow platform stats influencers factor).views_per_dollar = some w →
      ∃ v, statsViewsPerDollar stats = some v ∧ |w - v| ≤ v/10 + 10/2) := by
  refine ⟨?_, ?_, ?_, ?_, ?_, ?_⟩ <;> intro w hw
  · exact roundTo_addNoise_bound (statsCpa_nonneg hspent) hw
      (hf 0).1 (hf 0).2 (by norm_num)
  · exact roundTo_addNoise_bound (statsCpc_nonneg hspent) hw
      (hf 1).1 (hf 1).2 (by norm_num)
  · exact roundTo_addNoise_bound (statsCpm_nonneg hspent) hw
      (hf 2).1 (hf 2).2 (by norm_num)
  · exact roundTo_addNoise_bound (statsConversionRate_nonneg hconv) hw
      (hf 3).1 (hf 3).2 (by norm_num)
  · exact roundTo_addNoise_bound (contentDeliveryRateOf_nonneg platform influencers) hw
      (hf 4).1 (hf 4).2 (by norm_num)
  · exact roundTo_addNoise_bound (statsViewsPerDollar_nonneg hviews) hw
      (hf 5).1 (hf 5).2 (by norm_num)

/-- Witness for `noise_bound_spec`: the youtube stats of the C1 input with
all noise factors 1; the stored CPA 50 is within bound of the pre-noise
CPA 50. -/
theorem noise_bound_spec_witness :
    ∃ v, statsCpa ⟨3, 300, 6, 1000, 30⟩ = some v ∧ |(50 : ℚ) - v| ≤ v/10 + 5/2 := by
  have h := (noise_bound_spec "youtube" ⟨3, 300, 6, 1000, 30⟩ [] (fun _ => 1)
    (fun j => ⟨by norm_num, by norm_num⟩) (by norm_num) (by norm_num) (by norm_num)).1
  apply h
  norm_num [mkContributionRow, roundTo, addNoise, statsCpa, roundToVal, jsRound,
    Int.floor_eq_iff]

/-! ### Segment benchmark computation and lookup
(part_003, `computeSegmentBenchmarks`, `getBenchmarks`)

The `benchmark_data` table is a list of rows; `recorded_at` is a timestamp
(modelled as an integer number of days) and `NOW()` is the explicit `now`
parameter, so the trailing-90-days SQL filter is
`now - 90 < recorded_at`.  The `benchmarks` table is a list of
`SegmentRow`s with unique `segment` keys; the SQL
`INSERT ... ON CONFLICT (segment) DO UPDATE` is `upsertSegment`. -/

/-- A persisted `benchmark_data` row. -/
structure BenchRow where
  recorded_at : ℤ
  platform : String
  price_tier : String
  cpa : Option ℚ
  cpc : Option ℚ
  cpm : Option ℚ
  conversion_rate : Option ℚ
  content_delivery_rate : Option ℚ
  views_per_dollar : Option ℚ
deriving DecidableEq, Repr

/-- A row of the computed `benchmarks` table. -/
structure SegmentRow where
  segment : String
  sample_size : ℕ
  cpa_p25 : Option ℚ
  cpa_p50 : Option ℚ
  cpa_p75 : Option ℚ
  cpc_p50 : Option ℚ
  cpm_p50 : Option ℚ
  conversion_rate_p50 : Option ℚ
  content_delivery_rate_p50 : Option ℚ
  views_per_dollar_p50 : Option ℚ
deriving DecidableEq, Repr

/-- The `filters` argument of `computeSegmentBenchmarks`. -/
structure SegmentFilter where
  platform : Option String
  price_tier : Option String
deriving DecidableEq, Repr

/-- The WHERE clause: trailing 90 days plus the optional platform and
price-tier equality filters. -/
def matchesFilter (now : ℤ) (f : SegmentFilter) (r : BenchRow) : Bool :=
  decide (now - 90 < r.recorded_at) &&
    (match f.platform with
      | some p => r.platform == p
      | none => true) &&
    (match f.price_tier with
      | some t => r.price_tier == t
      | none => true)

/-- PostgreSQL `PERCENTILE_CONT(p) WITHIN GROUP (ORDER BY x)`: linear
interpolation at rank `p * (n - 1)` over the sorted values (the SQL
aggregate skips NULLs, hence the caller passes the non-null values);
NULL on an empty value set. -/
def percentileCont (p : ℚ) (xs : List ℚ) : Option ℚ :=
  let sorted := List.insertionSort (· ≤ ·) xs
  match sorted with
  | [] => none
  | _ =>
    let rank : ℚ := p * ((sorted.length : ℚ) - 1)
    let i : ℕ := (⌊rank⌋).toNat
    let lo := sorted.getD i 0
    let hi := sorted.getD (i + 1) lo
    some (lo + (rank - (⌊rank⌋ : ℚ)) * (hi - lo))

/-- The SELECT of `computeSegmentBenchmarks`: sample size and percentiles
over the filtered rows. -/
def mkSegmentRow (segment : String) (rows : List BenchRow) : SegmentRow :=
  ⟨segment, rows.length,
    percentileCont (1/4) (rows.filterMap BenchRow.cpa),
    percentileCont (1/2) (rows.filterMap BenchRow.cpa),
    percentileCont (3/4) (rows.filterMap BenchRow.cpa),
    percentileCont (1/2) (rows.filterMap BenchRow.cpc),
    percentileCont (1/2) (rows.filterMap BenchRow.cpm),
    percentileCont (1/2) (rows.filterMap BenchRow.conversion_rate),
    percentileCont (1/2) (rows.filterMap BenchRow.content_delivery_rate),
    percentileCont (1/2) (rows.filterMap BenchRow.views_per_dollar)⟩

/-- `SELECT * FROM benchmarks WHERE segment = seg LIMIT 1`. -/
def lookupSegment (table : List SegmentRow) (seg : String) : Option SegmentRow :=
  table.find? fun r => r.segment == seg

/-- `INSERT ... ON CONFLICT (segment) DO UPDATE`: replace the row with the
same segment key, else append. -/
def upsertSegment (table : List SegmentRow) (row : SegmentRow) : List SegmentRow :=
  if table.any fun r => r.segment == row.segment then
    table.map fun r => if r.segment == row.segment then row else r
  else table ++ [row]

/-- `computeSegmentBenchmarks(sql, segment, filters)` (part_003 lines
152-209): the benchmarks table is written only when the sample size over the
trailing 90 days is at least 10. -/
def computeSegmentBenchmarks (now : ℤ) (data : List BenchRow)
    (table : List SegmentRow) (segment : String) (f : SegmentFilter) :
    List SegmentRow :=
  let rows := data.filter (matchesFilter now f)
  if 10 ≤ rows.length then upsertSegment table (mkSegmentRow segment rows)
  else table

lemma lookupSegment_upsert (table : List SegmentRow) (row : SegmentRow) :
    lookupSegment (upsertSegment table row) row.segment = some row := by
  unfold upsertSegment lookupSegment
  by_cases h : (table.any fun r => r.segment == row.segment) = true
  · rw [if_pos h]
    induction table with
    | nil => cases h
    | cons r t ih =>
      by_cases hr : (r.segment == row.segment) = true
      · rw [List.map_cons, if_pos hr]
        exact List.find?_cons_of_pos _ (by simp)
      · have hr' : (r.segment == row.segment) = false := by simpa using hr
        rw [List.map_cons, if_neg hr, List.find?_cons, hr']
        have h' : (t.any fun r => r.segment == row.segment) = true := by
          simp only [List.any_cons, hr', Bool.false_or] at h
          exact h
        exact ih h'
  · rw [if_neg h]
    have hall : ∀ r ∈ table, (r.segment == row.segment) = false := by
      intro r hrmem
      by_contra hc
      exact h (List.any_eq_true.mpr ⟨r, hrmem, by simpa using hc⟩)
    rw [List.find?_append, List.find?_eq_none.mpr (fun r hrmem => by simp [hall r hrmem])]
    simp [List.find?_cons_of_pos]

/-- C2: For every segment refresh, a row in the benchmarks table is inserted
or updated only when the computed sample size over the trailing 90 days is
at least 10; when the sample size is 9 or fewer for a fresh segment, that
segment stays absent, and an existing segment row is left unchanged rather
than overwritten with the too-small sample (the whole table is untouched);
when the sample size reaches 10 the segment row is present with the computed
percentiles. -/
theorem segment_min_sample_spec (now : ℤ) (data : List BenchRow)
    (table : List SegmentRow) (segment : String) (f : SegmentFilter) :
    ((data.filter (matchesFilter now f)).length < 10 →
      computeSegmentBenchmarks now data table segment f = table) ∧
    (10 ≤ (data.filter (matchesFilter now f)).length →
      lookupSegment (computeSegmentBenchmarks now data table segment f) segment =
        some (mkSegmentRow segment (data.filter (matchesFilter now f)))) := by
  constructor
  · intro h
    simp only [computeSegmentBenchmarks]
    rw [if_neg (by omega)]
  · intro h
    simp only [computeSegmentBenchmarks]
    rw [if_pos h]
    exact lookupSegment_upsert table (mkSegmentRow segment _)

/-- A plain `benchmark_data` row used by the C2 witness. -/
def plainBenchRow : BenchRow := ⟨100, "YouTube", "micro", none, none, none, none, none, none⟩

/-- A pre-existing `benchmarks` row used by the C2 witness. -/
def c2Existing : SegmentRow := ⟨"overall", 42, none, none, none, none, none, none, none, none⟩

/-- Witness for `segment_min_sample_spec`: 9 qualifying rows leave the table
(including the existing `overall` row) unchanged; 10 produce the computed
segment row. -/
theorem segment_min_sample_spec_witness :
    computeSegmentBenchmarks 100 (List.replicate 9 plainBenchRow) [c2Existing]
      "overall" ⟨none, none⟩ = [c2Existing] ∧
    lookupSegment (computeSegmentBenchmarks 100 (List.replicate 10 plainBenchRow) []
        "overall" ⟨none, none⟩) "overall" =
      some (mkSegmentRow "overall"
        ((List.replicate 10 plainBenchRow).filter (matchesFilter 100 ⟨none, none⟩))) := by
  constructor
  · exact (segment_min_sample_spec 100 (List.replicate 9 plainBenchRow) [c2Existing]
      "overall" ⟨none, none⟩).1 (by decide)
  · exact (segment_min_sample_spec 100 (List.replicate 10 plainBenchRow) []
      "overall" ⟨none, none⟩).2 (by decide)

/-- `getDefaultBenchmarks()` (part_003 lines 244-257). -/
def defaultBenchmarks : SegmentRow :=
  ⟨"default", 0, some 15, some 30, some 60, some (1/2), some 5, some (1/1000),
    some 80, some 200⟩

/-- The `segments` array built by `getBenchmarks` (part_003 lines 215-226):
most specific first, always ending in `overall`. -/
def segmentsFor (platform priceTier : Option String) : List String :=
  (match platform, priceTier with
    | some p, some t => [p ++ ":" ++ t]
    | _, _ => []) ++
  (match platform with
    | some p => ["platform:" ++ p]
    | none => []) ++
  (match priceTier with
    | some t => ["tier:" ++ t]
    | none => []) ++
  ["overall"]

/-- `getBenchmarks(sql, platform, priceTier)` (part_003 lines 212-241): the
first segment row found in specificity order, else the static defaults. -/
def getBenchmarks (table : List SegmentRow) (platform priceTier : Option String) :
    SegmentRow :=
  match (segmentsFor platform priceTier).findSome? (lookupSegment table) with
  | some r => r
  | none => defaultBenchmarks

lemma getBenchmarks_eq (table : List SegmentRow) (platform priceTier : Option String) :
    getBenchmarks table platform priceTier =
      ((segmentsFor platform priceTier).findSome? (lookupSegment table)).getD
        defaultBenchmarks := by
  unfold getBenchmarks
  cases h : (segmentsFor platform priceTier).findSome? (lookupSegment table) <;> simp [h]

lemma findSome?_cons_orElse {α β : Type} (f : α → Option β) (a : α) (l : List α) :
    (a :: l).findSome? f = (f a).orElse fun _ => l.findSome? f := by
  cases h : f a <;> simp [List.findSome?_cons, h, Option.orElse]

lemma findSome?_singleton {α β : Type} (f : α → Option β) (a : α) :
    [a].findSome? f = f a := by
  cases h : f a <;> simp [List.findSome?_cons, h]

/-- C3: For every optional platform and optional tier, `getBenchmarks`
attempts segment lookups in the order `platform:tier`, then
`platform:platform`, then `tier:tier`, then `overall`, returning the first
segment row found; if none of these rows exists it returns the fixed static
default benchmark object (with its documented constants, e.g. `cpa_p50=30`,
`views_per_dollar_p50=200`), never an error; in particular requesting
`(platform="Kick", tier="micro")` when only `overall` exists returns the
`overall` row. -/
theorem getBenchmarks_fallback_spec (table : List SegmentRow) (p t : String)
    (row : SegmentRow) (hrow : row.segment = "overall") :
    (getBenchmarks table (some p) (some t) =
      ((lookupSegment table (p ++ ":" ++ t)).orElse fun _ =>
        (lookupSegment table ("platform:" ++ p)).orElse fun _ =>
          (lookupSegment table ("tier:" ++ t)).orElse fun _ =>
            lookupSegment table "overall").getD defaultBenchmarks) ∧
    (getBenchmarks table (some p) none =
      ((lookupSegment table ("platform:" ++ p)).orElse fun _ =>
        lookupSegment table "overall").getD defaultBenchmarks) ∧
    (getBenchmarks table none (some t) =
      ((lookupSegment table ("tier:" ++ t)).orElse fun _ =>
        lookupSegment table "overall").getD defaultBenchmarks) ∧
    (getBenchmarks table none none =
      (lookupSegment table "overall").getD defaultBenchmarks) ∧
    defaultBenchmarks.cpa_p50 = some 30 ∧
    defaultBenchmarks.views_per_dollar_p50 = some 200 ∧
    getBenchmarks [row] (some "Kick") (some "micro") = row := by
  refine ⟨?_, ?_, ?_, ?_, rfl, rfl, ?_⟩
  · rw [getBenchmarks_eq]
    show (([p ++ ":" ++ t, "platform:" ++ p, "tier:" ++ t,
      "overall"].findSome? (lookupSegment table)).getD defaultBenchmarks) = _
    rw [findSome?_cons_orElse, findSome?_cons_orElse, findSome?_cons_orElse,
      findSome?_singleton]
  · rw [getBenchmarks_eq]
    show ((["platform:" ++ p, "overall"].findSome? (lookupSegment table)).getD
      defaultBenchmarks) = _
    rw [findSome?_cons_orElse, findSome?_singleton]
  · rw [getBenchmarks_eq]
    show ((["tier:" ++ t, "overall"].findSome? (lookupSegment table)).getD
      defaultBenchmarks) = _
    rw [findSome?_cons_orElse, findSome?_singleton]
  · rw [getBenchmarks_eq]
    show ((["overall"].findSome? (lookupSegment table)).getD defaultBenchmarks) = _
    rw [findSome?_singleton]
  · rw [getBenchmarks_eq]
    have h1 : lookupSegment [row] ("Kick" ++ ":" ++ "micro") = none := by
      simp [lookupSegment, List.find?, hrow]
    have h2 : lookupSegment [row] ("platform:" ++ "Kick") = none := by
      simp [lookupSegment, List.find?, hrow]
    have h3 : lookupSegment [row] ("tier:" ++ "micro") = none := by
      simp [lookupSegment, List.find?, hrow]
    have h4 : lookupSegment [row] "overall" = some row := by
      simp [lookupSegment, List.find?, hrow]
    show ((["Kick" ++ ":" ++ "micro", "platform:" ++ "Kick", "tier:" ++ "micro",
      "overall"].findSome? (lookupSegment [row])).getD defaultBenchmarks) = row
    rw [findSome?_cons_orElse, findSome?_cons_orElse, findSome?_cons_orElse,
      findSome?_singleton, h1, h2, h3, h4]
    rfl

/-- Witness for `getBenchmarks_fallback_spec`: a table holding only an
`overall` row, queried for `(Kick, micro)`. -/
theorem getBenchmarks_fallback_spec_witness :
    getBenchmarks [c2Existing] (some "Kick") (some "micro") = c2Existing :=
  (getBenchmarks_fallback_spec [] "Kick" "micro" c2Existing rfl).2.2.2.2.2.2

/-! ### Health score (src/lib/score.js, `calculateScore`)

The issue strings of the source carry interpolated numbers; they are
modelled by the constructors of `Issue` with the interpolated value as the
argument (`Issue.noConversionsDespiteSpend` is the literal string
`'No conversions despite significant spend'`).  The early return
`{score: 50, issues: [], breakdown: {}, benchmarkComparison: null}` has no
`insights`/`thresholds` keys and an empty `breakdown` object, modelled as
`none` in the corresponding `Option` fields. -/

/-- The issue messages `calculateScore` can push. -/
inductive Issue
  | cpaCritical (cpa : ℚ)
  | cpaConcern (cpa : ℚ)
  | cpaImprove (cpa : ℚ)
  | noConversionsDespiteSpend
  | lowContentDelivery (rate : ℚ)
  | creatorsNotDelivered (n : ℕ)
  | halfSpendZeroConversions
  | significantWaste
  | onePlatformConverting
  | noPlatformsConverting
  | fewCreators
deriving DecidableEq, Repr

/-- The insight messages `calculateScore` can push. -/
inductive Insight
  | excellentCpa
  | strongCpa
deriving DecidableEq, Repr

/-- The thresholds record of score.js. -/
structure Thresholds where
  cpaExcellent : ℚ
  cpaGood : ℚ
  cpaConcern : ℚ
  cpaCritical : ℚ
  contentDeliveryGood : ℚ
  contentDeliveryPoor : ℚ
  contentDeadlineDays : ℤ
  viewsPerDollarGood : ℚ
deriving DecidableEq, Repr

/-- JS `Number(x) || d` on a nullable numeric column: `d` when the column is
null or zero. -/
def numOr (x : Option ℚ) (d : ℚ) : ℚ :=
  match x with
  | some v => if v = 0 then d else v
  | none => d

/-- `getDynamicThresholds(benchmarks)` (score.js lines 142-160). -/
def getDynamicThresholds (b : SegmentRow) : Thresholds :=
  ⟨numOr b.cpa_p25 15, numOr b.cpa_p50 30, numOr b.cpa_p75 60,
    numOr b.cpa_p50 30 * 2,
    numOr b.content_delivery_rate_p50 80,
    numOr b.content_delivery_rate_p50 80 * (6/10),
    ⌈(100 - numOr b.content_delivery_rate_p50 80) / 10⌉ + 7,
    numOr b.views_per_dollar_p50 200⟩

/-- `getDefaultThresholds()` (score.js lines 163-174). -/
def getDefaultThresholds : Thresholds := ⟨15, 30, 60, 60, 80, 50, 7, 200⟩

/-- The `totals` object consumed by `calculateScore`. -/
structure Totals where
  totalSpent : ℚ
  totalConversions : ℚ
  totalViews : ℚ
  campaigns : ℚ
deriving DecidableEq, Repr

/-- The influencer fields `calculateScore` reads. -/
structure ScoreInfluencer where
  price : ℚ
deriving DecidableEq, Repr

/-- The `data` argument of `calculateScore`. -/
structure ScoreData where
  totals : Totals
  noContent : List ScoreInfluencer
  noConversions : List ScoreInfluencer
  platforms : List (String × PlatformStats)
  influencers : List ScoreInfluencer
deriving DecidableEq, Repr

/-- The numeric content of the `breakdown` object (the source formats some
fields with `toFixed`; the underlying values are modelled). -/
structure Breakdown where
  cpa : Option ℚ
  cpaBenchmark : ℚ
  contentDeliveryRate : ℚ
  contentDeliveryBenchmark : ℚ
  wasteRatio : ℚ
  convertingPlatforms : ℕ
  totalPlatforms : ℕ
  viewsPerDollar : ℚ
deriving DecidableEq, Repr

/-- The `benchmarkComparison.cpa` object. -/
structure CpaComparison where
  value : ℚ
  benchmark : Option ℚ
  percentile : String
  rating : String
deriving DecidableEq, Repr

/-- The `benchmarkComparison.contentDelivery` object. -/
structure DeliveryComparison where
  value : ℚ
  benchmark : ℚ
  rating : String
deriving DecidableEq, Repr

/-- The `benchmarkComparison.viewsPerDollar` object. -/
structure VpdComparison where
  value : ℚ
  benchmark : Option ℚ
  rating : String
deriving DecidableEq, Repr

/-- The `benchmarkComparison` object. -/
structure BenchmarkComparison where
  cpa : Option CpaComparison
  contentDelivery : DeliveryComparison
  viewsPerDollar : Option VpdComparison
  sampleSize : ℕ
deriving DecidableEq, Repr

/-- The result object of `calculateScore`. -/
structure ScoreResult where
  score : ℤ
  issues : List Issue
  insights : Option (List Insight)
  breakdown : Option Breakdown
  benchmarkComparison : Option BenchmarkComparison
  thresholds : Option Thresholds
deriving DecidableEq, Repr

/-- JS comparison against a possibly-null column coerces null to 0. -/
def optQ (x : Option ℚ) : ℚ := x.getD 0

/-- The `benchmarkComparison.cpa` object (score.js lines 100-108). -/
def mkCpaComparison (b : SegmentRow) (c : ℚ) : CpaComparison :=
  ⟨c, b.cpa_p50,
    if c ≤ optQ b.cpa_p25 then "top25"
    else if c ≤ optQ b.cpa_p50 then "top50"
    else if c ≤ optQ b.cpa_p75 then "bottom50"
    else "bottom25",
    if c ≤ optQ b.cpa_p50 then "good"
    else if c ≤ optQ b.cpa_p75 then "average"
    else "poor"⟩

/-- The `benchmarkComparison` object (score.js lines 99-120). -/
def mkBenchmarkComparison (b : SegmentRow) (cpa : Option ℚ) (cdr vpd : ℚ) :
    BenchmarkComparison :=
  ⟨cpa.map (mkCpaComparison b),
    ⟨cdr, numOr b.content_delivery_rate_p50 80,
      if numOr b.content_delivery_rate_p50 80 ≤ cdr then "good" else "below"⟩,
    if 0 < vpd then
      some ⟨vpd, b.views_per_dollar_p50,
        if numOr b.views_per_dollar_p50 200 ≤ vpd then "good" else "below"⟩
    else none,
    b.sample_size⟩

/-- The user CPA: `totalConversions > 0 ? totalSpent / totalConversions : null`
(score.js line 22). -/
def scoreCpa (data : ScoreData) : Option ℚ :=
  if 0 < data.totals.totalConversions
  then some (data.totals.totalSpent / data.totals.totalConversions) else none

/-- Content-delivery rate (score.js lines 23-25). -/
def scoreCdr (data : ScoreData) : ℚ :=
  if 0 < data.influencers.length then
    (((data.influencers.length : ℚ) - data.noContent.length) /
      data.influencers.length) * 100
  else 100

/-- Views per dollar (score.js line 26). -/
def scoreVpd (data : ScoreData) : ℚ :=
  if 0 < data.totals.totalSpent
  then data.totals.totalViews / data.totals.totalSpent else 0

/-- Wasted-spend ratio (score.js lines 64-65). -/
def scoreWasteRatio (data : ScoreData) : ℚ :=
  if 0 < data.totals.totalSpent
  then (data.noConversions.map ScoreInfluencer.price).sum / data.totals.totalSpent
  else 0

/-- `hasBenchmarkData = benchmarks?.sample_size > 0` (score.js line 12). -/
def scoreHasB (benchmarks : Option SegmentRow) : Bool :=
  match benchmarks with
  | some b => decide (0 < b.sample_size)
  | none => false

/-- Threshold selection (score.js line 15). -/
def scoreThresholds (benchmarks : Option SegmentRow) : Thresholds :=
  match benchmarks with
  | some b => if 0 < b.sample_size then getDynamicThresholds b else getDefaultThresholds
  | none => getDefaultThresholds

/-- Step 1 of `calculateScore` (CPA performance, score.js lines 28-49):
(penalty, issues, insights). -/
def cpaStep (cpa : Option ℚ) (totals : Totals) (hasB : Bool) (thr : Thresholds) :
    ℤ × List Issue × List Insight :=
  match cpa with
  | some c =>
    if 500 < totals.totalSpent then
      if thr.cpaCritical < c then (30, [Issue.cpaCritical c], [])
      else if thr.cpaConcern < c then (20, [Issue.cpaConcern c], [])
      else if thr.cpaGood < c then (10, [Issue.cpaImprove c], [])
      else if c ≤ thr.cpaExcellent then
        (0, [], [if hasB then Insight.excellentCpa else Insight.strongCpa])
      else (0, [], [])
    else (0, [], [])
  | none =>
    if 500 < totals.totalSpent ∧ totals.totalConversions = 0 then
      (30, [Issue.noConversionsDespiteSpend], [])
    else (0, [], [])

/-- Step 2 (content delivery, score.js lines 51-61). -/
def contentStep (noContentLen : ℕ) (cdr : ℚ) (thr : Thresholds) : ℤ × List Issue :=
  if 0 < noContentLen then
    if cdr < thr.contentDeliveryPoor then (25, [Issue.lowContentDelivery cdr])
    else if cdr < thr.contentDeliveryGood then
      (min 15 (jsRound ((thr.contentDeliveryGood - cdr) / 2)),
        [Issue.creatorsNotDelivered noContentLen])
    else (0, [])
  else (0, [])

/-- Step 3 (spend efficiency, score.js lines 67-75). -/
def wasteStep (wasteRatio : ℚ) : ℤ × List Issue :=
  if 1/2 < wasteRatio then (20, [Issue.halfSpendZeroConversions])
  else if 3/10 < wasteRatio then (15, [Issue.significantWaste])
  else if 1/10 < wasteRatio then (10, [])
  else (0, [])

/-- Step 4 (platform diversification, score.js lines 77-87). -/
def platformStep (platformCount convertingPlatforms : ℕ) : ℤ × List Issue :=
  if 1 < platformCount ∧ convertingPlatforms = 1 then
    (10, [Issue.onePlatformConverting])
  else if 2 < platformCount ∧ convertingPlatforms = 0 then
    (15, [Issue.noPlatformsConverting])
  else (0, [])

/-- Step 5 (activity, score.js lines 89-93). -/
def activityStep (influencerCount : ℕ) (campaigns : ℚ) : ℤ × List Issue :=
  if influencerCount < 3 ∧ 0 < campaigns then (5, [Issue.fewCreators])
  else (0, [])

/-- `calculateScore(data, benchmarks)` (score.js lines 3-139). -/
def calculateScore (data : ScoreData) (benchmarks : Option SegmentRow) : ScoreResult :=
  if data.influencers.length = 0 then ⟨50, [], none, none, none, none⟩
  else
    let thr := scoreThresholds benchmarks
    let s1 := cpaStep (scoreCpa data) data.totals (scoreHasB benchmarks) thr
    let s2 := contentStep data.noContent.length (scoreCdr data) thr
    let s3 := wasteStep (scoreWasteRatio data)
    let s4 := platformStep data.platforms.length
      ((data.platforms.filter fun p => 0 < p.2.conversions).length)
    let s5 := activityStep data.influencers.length data.totals.campaigns
    ⟨max 0 (min 100 (100 - s1.1 - s2.1 - s3.1 - s4.1 - s5.1)),
      s1.2.1 ++ s2.2 ++ s3.2 ++ s4.2 ++ s5.2,
      some s1.2.2,
      some ⟨scoreCpa data, thr.cpaGood, scoreCdr data, thr.contentDeliveryGood,
        scoreWasteRatio data,
        ((data.platforms.filter fun p => 0 < p.2.conversions).length),
        data.platforms.length, scoreVpd data⟩,
      benchmarks.map fun b =>
        mkBenchmarkComparison b (scoreCpa data) (scoreCdr data) (scoreVpd data),
      some thr⟩

lemma calculateScore_score (data : ScoreData) (benchmarks : Option SegmentRow)
    (hne : data.influencers.length ≠ 0) :
    (calculateScore data benchmarks).score =
      max 0 (min 100 (100 -
        (cpaStep (scoreCpa data) data.totals (scoreHasB benchmarks)
          (scoreThresholds benchmarks)).1 -
        (contentStep data.noContent.length (scoreCdr data)
          (scoreThresholds benchmarks)).1 -
        (wasteStep (scoreWasteRatio data)).1 -
        (platformStep data.platforms.length
          ((data.platforms.filter fun p => 0 < p.2.conversions).length)).1 -
        (activityStep data.influencers.length data.totals.campaigns).1)) := by
  unfold calculateScore
  rw [if_neg hne]

lemma calculateScore_issues (data : ScoreData) (benchmarks : Option SegmentRow)
    (hne : data.influencers.length ≠ 0) :
    (calculateScore data benchmarks).issues =
      (cpaStep (scoreCpa data) data.totals (scoreHasB benchmarks)
        (scoreThresholds benchmarks)).2.1 ++
      (contentStep data.noContent.length (scoreCdr data)
        (scoreThresholds benchmarks)).2 ++
      (wasteStep (scoreWasteRatio data)).2 ++
      (platformStep data.platforms.length
        ((data.platforms.filter fun p => 0 < p.2.conversions).length)).2 ++
      (activityStep data.influencers.length data.totals.campaigns).2 := by
  unfold calculateScore
  rw [if_neg hne]

lemma jsRound_nonneg {x : ℚ} (h : 0 ≤ x) : 0 ≤ jsRound x := by
  unfold jsRound
  exact Int.floor_nonneg.mpr (by linarith)

lemma cpaStep_nonneg (cpa : Option ℚ) (totals : Totals) (hasB : Bool)
    (thr : Thresholds) : 0 ≤ (cpaStep cpa totals hasB thr).1 := by
  cases cpa with
  | none =>
    simp only [cpaStep]
    split_ifs <;> norm_num
  | some c =>
    simp only [cpaStep]
    split_ifs <;> norm_num

lemma contentStep_nonneg (n : ℕ) (cdr : ℚ) (thr : Thresholds) :
    0 ≤ (contentStep n cdr thr).1 := by
  unfold contentStep
  split_ifs with h1 h2 h3
  · norm_num
  · exact le_min (by norm_num) (jsRound_nonneg (by linarith))
  · norm_num
  · norm_num

lemma wasteStep_nonneg (r : ℚ) : 0 ≤ (wasteStep r).1 := by
  unfold wasteStep
  split_ifs <;> norm_num

lemma platformStep_nonneg (a b : ℕ) : 0 ≤ (platformStep a b).1 := by
  unfold platformStep
  split_ifs <;> norm_num

lemma activityStep_nonneg (a : ℕ) (c : ℚ) : 0 ≤ (activityStep a c).1 := by
  unfold activityStep
  split_ifs <;> norm_num

/-- C9: For every input with at least one influencer where
`totals.totalSpent > 500` (e.g. `totalSpent=10000`) and
`totals.totalConversions = 0`, `calculateScore` deterministically includes
the -30 no-conversions-despite-spend penalty, its issues list contains the
message referencing the absence of conversions, and the returned score is an
integer (the result type is `ℤ`) clamped to `[0, 100]` — here even to
`[0, 70]` since the -30 penalty applies. -/
theorem calculateScore_noConversions_spec (data : ScoreData)
    (benchmarks : Option SegmentRow)
    (hne : data.influencers.length ≠ 0)
    (hspend : 500 < data.totals.totalSpent)
    (hconv : data.totals.totalConversions = 0) :
    cpaStep (scoreCpa data) data.totals (scoreHasB benchmarks)
        (scoreThresholds benchmarks) =
      (30, [Issue.noConversionsDespiteSpend], []) ∧
    Issue.noConversionsDespiteSpend ∈ (calculateScore data benchmarks).issues ∧
    0 ≤ (calculateScore data benchmarks).score ∧
    (calculateScore data benchmarks).score ≤ 70 := by
  have hcpa : scoreCpa data = none := by
    unfold scoreCpa
    rw [hconv]
    norm_num
  have hstep : cpaStep (scoreCpa data) data.totals (scoreHasB benchmarks)
      (scoreThresholds benchmarks) = (30, [Issue.noConversionsDespiteSpend], []) := by
    rw [hcpa]
    show (if 500 < data.totals.totalSpent ∧ data.totals.totalConversions = 0 then
        ((30 : ℤ), [Issue.noConversionsDespiteSpend], ([] : List Insight))
      else (0, [], [])) = (30, [Issue.noConversionsDespiteSpend], [])
    rw [if_pos ⟨hspend, hconv⟩]
  refine ⟨hstep, ?_, ?_, ?_⟩
  · rw [calculateScore_issues data benchmarks hne, hstep]
    simp
  · rw [calculateScore_score data benchmarks hne]
    exact le_max_left 0 _
  · rw [calculateScore_score data benchmarks hne, hstep]
    have h2 := contentStep_nonneg data.noContent.length (scoreCdr data)
      (scoreThresholds benchmarks)
    have h3 := wasteStep_nonneg (scoreWasteRatio data)
    have h4 := platformStep_nonneg data.platforms.length
      ((data.platforms.filter fun p => 0 < p.2.conversions).length)
    have h5 := activityStep_nonneg data.influencers.length data.totals.campaigns
    have hmin : min 100 (100 - (30, [Issue.noConversionsDespiteSpend],
        ([] : List Insight)).1 -
        (contentStep data.noContent.length (scoreCdr data)
          (scoreThresholds benchmarks)).1 -
        (wasteStep (scoreWasteRatio data)).1 -
        (platformStep data.platforms.length
          ((data.platforms.filter fun p => 0 < p.2.conversions).length)).1 -
        (activityStep data.influencers.length data.totals.campaigns).1) ≤ 70 := by
      refine le_trans (min_le_right _ _) ?_
      simp only
      omega
    exact max_le (by norm_num) hmin

/-- The C9 witness tenant: one influencer, `totalSpent = 10000`, no
conversions. -/
def c9Data : ScoreData := ⟨⟨10000, 0, 0, 0⟩, [], [], [], [⟨100⟩]⟩

/-- Witness for `calculateScore_noConversions_spec` at `totalSpent=10000`. -/
theorem calculateScore_noConversions_spec_witness :
    Issue.noConversionsDespiteSpend ∈ (calculateScore c9Data none).issues ∧
    0 ≤ (calculateScore c9Data none).score ∧
    (calculateScore c9Data none).score ≤ 70 := by
  have h := calculateScore_noConversions_spec c9Data none (by decide)
    (by norm_num [c9Data]) rfl
  exact ⟨h.2.1, h.2.2.1, h.2.2.2⟩

/-- C10 (implicit): when the influencers list is empty, `calculateScore`
short-circuits and returns exactly
`{score: 50, issues: [], breakdown: {}, benchmarkComparison: null}` (with no
insights or thresholds keys) for every benchmarks argument (including null),
before any penalty or threshold logic runs. -/
theorem calculateScore_empty_spec (data : ScoreData) (benchmarks : Option SegmentRow)
    (h : data.influencers = []) :
    calculateScore data benchmarks = ⟨50, [], none, none, none, none⟩ := by
  unfold calculateScore
  rw [if_pos (by simp [h])]

/-- Witness for `calculateScore_empty_spec`: empty tenant, with and without
a benchmarks row. -/
theorem calculateScore_empty_spec_witness :
    calculateScore ⟨⟨0, 0, 0, 0⟩, [], [], [], []⟩ none =
      ⟨50, [], none, none, none, none⟩ ∧
    calculateScore ⟨⟨0, 0, 0, 0⟩, [], [], [], []⟩ (some c2Existing) =
      ⟨50, [], none, none, none, none⟩ :=
  ⟨calculateScore_empty_spec _ none rfl,
   calculateScore_empty_spec _ (some c2Existing) rfl⟩

end Envisioner
